import Mathlib

/-!
Verification of the enhanced-osint-system-v2 enrichment core.

Shallow embedding of:
  - src/osint-tools/validators.py   (validate_email)
  - src/osint-tools/dns_utils.py    (resolve_dns, get_mail_server_details)
  - src/osint-tools/whois_utils.py  (domain_whois)
  - src/osint-tools/social_media.py (social_media_lookup)
  - src/core/enrichment.py          (enrich_real_lead, process_leads_parallel,
                                     the progress-state update block of
                                     process_real_leads_production_parallel)

External effects (DNS resolution, WHOIS lookups, the holehe subprocess,
HTTP requests) are modelled by an explicit Oracle record: each oracle field
returns either a success payload or the exception the library call would
have raised (as its message).  Wall-clock timestamps are not modelled; the
processing-time field is threaded through as an explicit duration argument.
Thread-pool scheduling is modelled by an explicit completion order: a list
of lead indices that is a permutation of the submission order.
-/

/-! ## Python string primitives, on lists of characters -/

/-- Python str.split(sep) for a single-character separator, on the character
list: splits at every occurrence of the separator, keeping empty chunks.
The result is always nonempty. -/
def chSplitP (p : Char → Bool) : List Char → List (List Char)
  | [] => [[]]
  | c :: rest =>
    let r := chSplitP p rest
    if p c then [] :: r
    else
      match r with
      | [] => [[c]]
      | h :: t => (c :: h) :: t

def chSplit (sep : Char) (l : List Char) : List (List Char) :=
  chSplitP (fun c => c == sep) l

/-- Intercalate a single-character separator (inverse of chSplit). -/
def chIntercalate (sep : Char) : List (List Char) → List Char
  | [] => []
  | [l] => l
  | l :: rest => l ++ sep :: chIntercalate sep rest

/-- Python str.startswith on character lists. -/
def chPre : List Char → List Char → Bool
  | [], _ => true
  | _ :: _, [] => false
  | a :: as_, b :: bs => a == b && chPre as_ bs

/-- Python substring test (the `in` operator on str), on character lists. -/
def chHasSub (needle : List Char) : List Char → Bool
  | [] => chPre needle []
  | c :: t => chPre needle (c :: t) || chHasSub needle t

/-- Python str.strip(): drop whitespace from both ends. -/
def pyStrip (l : List Char) : List Char :=
  ((l.dropWhile Char.isWhitespace).reverse.dropWhile Char.isWhitespace).reverse

/-- Python str.split() with no argument: split on whitespace runs,
discarding empty chunks. -/
def pyWhitespaceSplit (l : List Char) : List (List Char) :=
  (chSplitP Char.isWhitespace l).filter (fun w => !w.isEmpty)

/-- Python s.split(sep) for a one-character separator, on strings. -/
def pySplitChar (sep : Char) (s : String) : List String :=
  (chSplit sep s.data).map String.mk

/-- Python needle in hay (substring containment), on strings. -/
def pyIn (needle hay : String) : Bool :=
  chHasSub needle.data hay.data

/-! ## Data model -/

/-- A lead record, as consumed by enrich_real_lead (the fields it reads). -/
structure Lead where
  id : Nat
  email : String
  company : String
  country : String
  deriving Repr, DecidableEq

/-- Result dict of get_mail_server_details.  Each value is either a list of
record strings or the fallback message (Python value or-default). -/
structure MailServerDetails where
  mxRecords : List String ⊕ String
  spf : List String ⊕ String
  dmarc : List String ⊕ String
  dkim : List String ⊕ String
  deriving Repr, DecidableEq

/-- The four fields of the success dict returned by domain_whois. -/
structure WhoisInfo where
  registrar : String
  creationDate : String
  expirationDate : String
  organization : String
  deriving Repr, DecidableEq

/-- domain_whois returns either the info dict or an error dict whose single
key is "Error".  Both are nonempty dicts, hence truthy in Python. -/
inductive WhoisResult where
  | info : WhoisInfo → WhoisResult
  | errorDict : String → WhoisResult
  deriving Repr, DecidableEq

/-- Raw whois.whois record: nullable fields (none models a Python falsy
value such as None). -/
structure WhoisRaw where
  registrar : Option String
  creationDate : Option String
  expirationDate : Option String
  org : Option String
  deriving Repr, DecidableEq

/-- Result dict of social_media_lookup: found platform/url pairs in
insertion order, and platforms whose request raised. -/
structure SocialInfo where
  foundAccounts : List (String × String)
  failedChecks : List String
  deriving Repr, DecidableEq

/-- The enrichment_data dict: a key is present (some) once the relevant
probe stage has stored it. -/
structure EnrichmentData where
  email_valid : Option Bool
  dns_info : Option MailServerDetails
  whois_info : Option WhoisInfo
  holehe_accounts : Option (List String)
  social_media : Option SocialInfo
  deriving Repr, DecidableEq

def emptyEnrichmentData : EnrichmentData :=
  { email_valid := none, dns_info := none, whois_info := none,
    holehe_accounts := none, social_media := none }

/-- The enrichment_result dict built by enrich_real_lead.  The timestamp
field (wall-clock) is not modelled; processing_time is set from the
explicit duration argument. -/
structure EnrichmentResult where
  lead_id : Nat
  email : String
  company : String
  country : String
  enrichment_data : EnrichmentData
  score : Nat
  processing_time : Nat
  status : String
  error : Option String
  deriving Repr, DecidableEq

/-- Outcome of one subprocess.run([path, email]) attempt. -/
inductive PathOutcome where
  | notFound
  | timeout
  | ran : Int → String → PathOutcome
  deriving Repr, DecidableEq

/-- Oracle for every external effect.  A .error carries the message of the
exception the library call raised. -/
structure Oracle where
  /-- dns.resolver.resolve(domain, record_type): answer texts or exception. -/
  dnsResolve : String → String → Except String (List String)
  /-- whois.whois(domain): raw record or exception. -/
  whoisLookup : String → Except String WhoisRaw
  /-- subprocess.run([path, email], timeout=30): per path and email. -/
  holeheRun : String → String → PathOutcome
  /-- requests.get(url, timeout=5): status code, or a RequestException. -/
  request : String → Except Unit Nat

/-- The minimal error dict the batch runner synthesizes at line 362 of
enrichment.py (note: no company/country/score/enrichment_data keys). -/
structure MinimalErrorRecord where
  lead_id : Nat
  email : String
  status : String
  error : String
  processing_time : Nat
  deriving Repr, DecidableEq

/-- An element of the runner's results list: either a full result returned
by enrich_real_lead or the synthesized minimal error dict. -/
inductive RunnerResult where
  | full : EnrichmentResult → RunnerResult
  | minimalError : MinimalErrorRecord → RunnerResult
  deriving Repr, DecidableEq

/-- The shared processing_status dict fields updated at lines 404-409 of
enrichment.py (last_update, a wall-clock timestamp, is not modelled). -/
structure ProgressState where
  processed_leads : Nat
  successful_leads : Nat
  failed_leads : Nat
  progress_percentage : ℚ
  deriving Repr, DecidableEq

/-! ## validators.py -/

/-- Character class of the local part in the validation regex,
[a-zA-Z0-9_.+-]. -/
def emailLocalChar (c : Char) : Bool :=
  c.isAlphanum || c == '_' || c == '.' || c == '+' || c == '-'

/-- Character class of the second-level-domain part, [a-zA-Z0-9-]. -/
def emailDomainChar (c : Char) : Bool :=
  c.isAlphanum || c == '-'

/-- Character class of the tail part, [a-zA-Z0-9-.]. -/
def emailTldChar (c : Char) : Bool :=
  c.isAlphanum || c == '-' || c == '.'

/-- Matchability of the domain side of the regex, B+\.C+ where B excludes
the dot.  A match forces the literal dot to be the first dot of the
string (anything before the matched dot lies in B, which has no dot), so
the string matches iff it has a dot, the chunk before the first dot is
nonempty and all in B, and the rest is nonempty and all in C. -/
def emailDomainMatch (d : List Char) : Bool :=
  match chSplit '.' d with
  | b :: rest@(_ :: _) =>
    let c := chIntercalate '.' rest
    !b.isEmpty && b.all emailDomainChar && (!c.isEmpty && c.all emailTldChar)
  | _ => false

/-- re.match against r given in validators.py line 6 (anchored both ends).
All three character classes exclude the at sign, so a matching string has
exactly one at sign; chSplit yields exactly two chunks in that case. -/
def emailRegexMatch (email : String) : Bool :=
  match chSplit '@' email.data with
  | [l, d] => !l.isEmpty && l.all emailLocalChar && emailDomainMatch d
  | _ => false

/-- Python s.split(sep)[1]: none models the IndexError raised when the
separator does not occur. -/
def pySplitIndex1 (sep : Char) (s : String) : Option String :=
  (pySplitChar sep s).get? 1

/-- validators.py validate_email.  The MX resolution only runs after the
regex accepted, and the regex guarantees that the at sign occurs, so the
index-1 access cannot fail there. -/
def validate_email (o : Oracle) (email : String) : Bool × String :=
  if !emailRegexMatch email then
    (false, "Invalid email format!")
  else
    let domain := (pySplitIndex1 '@' email).getD ""
    match o.dnsResolve domain "MX" with
    | .ok _ => (true, "Email validation successful!")
    | .error e => (false, "Domain validation failed: " ++ e)

/-! ## dns_utils.py -/

/-- dns_utils.py resolve_dns: every resolver exception is caught and turned
into a one-element list holding an explanatory error string. -/
def resolve_dns (o : Oracle) (domain record_type : String) : List String :=
  match o.dnsResolve domain record_type with
  | .ok answers => answers
  | .error e => ["Error resolving " ++ record_type ++ ": " ++ e]

/-- Python value or-default: an empty list is falsy, so [] or d yields d. -/
def pyListOrDefault (l : List String) (d : String) : List String ⊕ String :=
  if l.isEmpty then Sum.inr d else Sum.inl l

/-- dns_utils.py get_mail_server_details.  Never raises: resolve_dns
catches every exception, and the remaining operations are pure filters. -/
def get_mail_server_details (o : Oracle) (domain : String) : MailServerDetails :=
  let mx_records := resolve_dns o domain "MX"
  let txt_records := resolve_dns o domain "TXT"
  let spf := txt_records.filter (fun record => pyIn "v=spf1" record)
  let dmarc := txt_records.filter (fun record => pyIn "_dmarc" record)
  let dkim := txt_records.filter (fun record => pyIn "v=DKIM1" record)
  { mxRecords := pyListOrDefault mx_records "No MX records found.",
    spf := pyListOrDefault spf "No SPF record found.",
    dmarc := pyListOrDefault dmarc "No DMARC record found.",
    dkim := pyListOrDefault dkim "No DKIM record found." }

/-- Truthiness of the dict returned by get_mail_server_details: a Python
dict with four keys is nonempty, hence always truthy.  This is the test
the orchestrator performs at enrichment.py line 241 (`if dns_info:`). -/
def mailServerDetailsTruthy (_ : MailServerDetails) : Bool := true

/-! ## whois_utils.py -/

/-- whois_utils.py domain_whois. -/
def domain_whois (o : Oracle) (domain_or_email : String) : WhoisResult :=
  let domain :=
    if domain_or_email.data.contains '@' then
      (pySplitIndex1 '@' domain_or_email).getD ""
    else
      domain_or_email
  match o.whoisLookup domain with
  | .ok d =>
    WhoisResult.info
      { registrar := d.registrar.getD "Unknown",
        creationDate := d.creationDate.getD "Unknown",
        expirationDate := d.expirationDate.getD "Unknown",
        organization := d.org.getD "Unknown" }
  | .error e => WhoisResult.errorDict ("WHOIS lookup failed: " ++ e)

/-! ## social_media.py -/

/-- The fixed platform/url-template dict of social_media_lookup, in
insertion order. -/
def socialPlatforms (username : String) : List (String × String) :=
  [("Twitter", "https://twitter.com/" ++ username),
   ("GitHub", "https://github.com/" ++ username),
   ("Instagram", "https://www.instagram.com/" ++ username),
   ("Facebook", "https://www.facebook.com/" ++ username),
   ("LinkedIn", "https://www.linkedin.com/in/" ++ username),
   ("YouTube", "https://www.youtube.com/" ++ username),
   ("Reddit", "https://www.reddit.com/user/" ++ username),
   ("TikTok", "https://www.tiktok.com/@" ++ username),
   ("Pinterest", "https://www.pinterest.com/" ++ username),
   ("Tumblr", "https://" ++ username ++ ".tumblr.com"),
   ("Medium", "https://medium.com/@" ++ username),
   ("Snapchat", "https://www.snapchat.com/add/" ++ username),
   ("Quora", "https://www.quora.com/profile/" ++ username),
   ("Flickr", "https://www.flickr.com/people/" ++ username),
   ("Vimeo", "https://vimeo.com/" ++ username),
   ("SoundCloud", "https://soundcloud.com/" ++ username),
   ("Dribbble", "https://dribbble.com/" ++ username),
   ("Behance", "https://www.behance.net/" ++ username),
   ("DeviantArt", "https://www.deviantart.com/" ++ username),
   ("Goodreads", "https://www.goodreads.com/" ++ username),
   ("StackOverflow", "https://stackoverflow.com/users/" ++ username),
   ("Kaggle", "https://www.kaggle.com/" ++ username),
   ("Twitch", "https://www.twitch.tv/" ++ username),
   ("Patreon", "https://www.patreon.com/" ++ username),
   ("WeHeartIt", "https://weheartit.com/" ++ username),
   ("Wattpad", "https://www.wattpad.com/user/" ++ username),
   ("Strava", "https://www.strava.com/athletes/" ++ username),
   ("Bandcamp", "https://bandcamp.com/" ++ username)]

/-- social_media.py social_media_lookup.  A request exception adds the
platform to failed_checks; a 200 status adds the pair to found_accounts;
any other status is ignored.  email.split(at)[0] always exists because a
Python split list is never empty. -/
def social_media_lookup (o : Oracle) (email : String) : SocialInfo :=
  let username := ((pySplitChar '@' email).get? 0).getD ""
  let step := fun (acc : List (String × String) × List String)
                  (pu : String × String) =>
    match o.request pu.2 with
    | .ok status => if status == 200 then (acc.1 ++ [pu], acc.2) else acc
    | .error _ => (acc.1, acc.2 ++ [pu.1])
  let res := (socialPlatforms username).foldl step ([], [])
  { foundAccounts := res.1, failedChecks := res.2 }

/-- Truthiness of the dict returned by social_media_lookup: two keys,
always truthy.  The orchestrator additionally tests the Found Accounts
value, which is truthy iff nonempty. -/
def socialInfoTruthy (_ : SocialInfo) : Bool := true

/-! ## enrichment.py: holehe parsing and path fallback -/

/-- The candidate executable paths tried at enrichment.py line 266. -/
def holehePaths : List String :=
  ["holehe", "/usr/bin/holehe", "/usr/local/bin/holehe", "/app/venv/bin/holehe"]

/-- The path-fallback loop of enrichment.py lines 269-280.  FileNotFoundError
is caught and skips to the next path; a completed run is kept (and the loop
breaks on exit code 0); TimeoutExpired escapes the inner try (which catches
only FileNotFoundError) and aborts the whole stage (.error). -/
def holeheLoop (o : Oracle) (email : String) :
    List String → Option (Int × String) → Except Unit (Option (Int × String))
  | [], acc => .ok acc
  | p :: rest, acc =>
    match o.holeheRun p email with
    | .notFound => holeheLoop o email rest acc
    | .timeout => .error ()
    | .ran rc out =>
      if rc == 0 then .ok (some (rc, out)) else holeheLoop o email rest (some (rc, out))

/-- The stdout parsing of enrichment.py lines 284-290: strip, split into
lines, keep lines starting with the success marker, and take the second
whitespace-separated token of each (or the fallback name). -/
def parseHoleheAccounts (stdout : String) : List String :=
  let output_lines := chSplit '\n' (pyStrip stdout.data)
  let plusLines := output_lines.filter (fun l => chPre "[+]".data l)
  plusLines.map (fun l =>
    match (pyWhitespaceSplit l).get? 1 with
    | some w => String.mk w
    | none => "Unknown")

/-! ## enrichment.py: the per-lead orchestrator -/

/-- The enrichment_result dict as initialized at enrichment.py lines
210-220 (before the try block). -/
def initResult (lead : Lead) : EnrichmentResult :=
  { lead_id := lead.id, email := lead.email, company := lead.company,
    country := lead.country, enrichment_data := emptyEnrichmentData,
    score := 0, processing_time := 0, status := "processing", error := none }

/-- Stage 1, enrichment.py lines 223-232: email validation, 20 points. -/
def stage1Email (o : Oracle) (lead : Lead) (r : EnrichmentResult) : EnrichmentResult :=
  let v := validate_email o lead.email
  if v.1 then
    { r with
      enrichment_data := { r.enrichment_data with email_valid := some true },
      score := r.score + 20 }
  else
    { r with
      enrichment_data := { r.enrichment_data with email_valid := some false } }

/-- Stage 2a, enrichment.py lines 238-248: DNS analysis, 15 points.  The
call cannot raise (resolve_dns catches every resolver exception), so the
surrounding try/except adds nothing; the branch on dict truthiness is kept
as in the source. -/
def stage2dns (o : Oracle) (domain : String) (r : EnrichmentResult) : EnrichmentResult :=
  let dns_info := get_mail_server_details o domain
  if mailServerDetailsTruthy dns_info then
    { r with
      enrichment_data := { r.enrichment_data with dns_info := some dns_info },
      score := r.score + 15 }
  else
    r

/-- Stage 2b, enrichment.py lines 250-260: WHOIS analysis, 15 points.
domain_whois catches its own exceptions, and its result is a nonempty dict,
so the guard (whois_info and "Error" not in whois_info) holds exactly for
the info variant. -/
def stage2whois (o : Oracle) (domain : String) (r : EnrichmentResult) : EnrichmentResult :=
  match domain_whois o domain with
  | WhoisResult.info w =>
    { r with
      enrichment_data := { r.enrichment_data with whois_info := some w },
      score := r.score + 15 }
  | WhoisResult.errorDict _ => r

/-- Stage 3, enrichment.py lines 262-301: holehe account discovery, up to
30 points.  A timeout of any attempted path aborts the stage with no
credit; credit requires a completed run with exit code 0 (the guard
holehe_result and holehe_result.returncode == 0). -/
def stage3holehe (o : Oracle) (email : String) (r : EnrichmentResult) : EnrichmentResult :=
  match holeheLoop o email holehePaths none with
  | .error _ => r
  | .ok res =>
    match res with
    | some (rc, out) =>
      if rc == 0 then
        let found_accounts := parseHoleheAccounts out
        { r with
          enrichment_data :=
            { r.enrichment_data with holehe_accounts := some found_accounts },
          score := r.score + min (found_accounts.length * 2) 30 }
      else r
    | none => r

/-- Stage 4, enrichment.py lines 303-314: social media verification, 20
points, awarded iff the Found Accounts dict is nonempty. -/
def stage4social (o : Oracle) (email : String) (r : EnrichmentResult) : EnrichmentResult :=
  let social_info := social_media_lookup o email
  if socialInfoTruthy social_info && !social_info.foundAccounts.isEmpty then
    { r with
      enrichment_data :=
        { r.enrichment_data with social_media := some social_info },
      score := r.score + 20 }
  else
    r

/-- enrichment.py enrich_real_lead (lines 203-333).  The only statement in
the try block that can raise is the domain extraction at line 235
(email.split at-sign, index 1): when the email has no at sign the
IndexError is caught at line 320, which stamps status error and attaches
str(e), and the remaining stages never run.  Every probe stage catches its
own failures.  duration models the wall-clock elapsed time written into
processing_time at line 326. -/
def enrich_real_lead (o : Oracle) (lead : Lead) (duration : Nat) : EnrichmentResult :=
  let r1 := stage1Email o lead (initResult lead)
  match pySplitIndex1 '@' lead.email with
  | none =>
    { r1 with status := "error", error := some "list index out of range",
              processing_time := duration }
  | some domain =>
    let r2 := stage2dns o domain r1
    let r3 := stage2whois o domain r2
    let r4 := stage3holehe o lead.email r3
    let r5 := stage4social o lead.email r4
    { r5 with score := min r5.score 100, status := "completed",
              processing_time := duration }

/-! ## enrichment.py: the parallel batch runner -/

/-- The per-future collection step of enrichment.py lines 349-368: a
normally returned result is appended as is; an exception escaping
enrich_real_lead is converted to the minimal error dict. -/
def collectLead (run : Lead → Except String EnrichmentResult) (lead : Lead) : RunnerResult :=
  match run lead with
  | .ok result => RunnerResult.full result
  | .error exc =>
    RunnerResult.minimalError
      { lead_id := lead.id, email := lead.email, status := "error",
        error := exc, processing_time := 0 }

/-- enrichment.py process_leads_parallel (lines 335-370).  One future is
submitted per lead; as_completed yields every future exactly once, in an
order that depends on scheduling, modelled by the completion order: a list
of indices into the leads list that is a permutation of the submission
order.  max_workers only influences which completion orders are possible,
never the per-lead computation. -/
def process_leads_parallel (leads : List Lead) (max_workers : Nat)
    (run : Lead → Except String EnrichmentResult) (order : List Nat) : List RunnerResult :=
  order.filterMap (fun i => (leads.get? i).map (collectLead run))

/-! ## enrichment.py: progress-state update after a batch -/

/-- The status a caller reads off a runner result: the status field of a
full result, or the literal error status of the minimal dict. -/
def runnerStatus : RunnerResult → String
  | RunnerResult.full r => r.status
  | RunnerResult.minimalError m => m.status

/-- The summary/update block of process_real_leads_production_parallel,
enrichment.py lines 399-409: completed_leads filters on status, and the
shared processing_status dict receives the four counters (the percentage
is the literal 100.0). -/
def updateProcessingStatus (results : List RunnerResult) (st : ProgressState) : ProgressState :=
  let completed_leads := results.filter (fun r => runnerStatus r == "completed")
  { st with
    processed_leads := results.length,
    successful_leads := completed_leads.length,
    failed_leads := results.length - completed_leads.length,
    progress_percentage := 100 }

/-! ## Auxiliary results comparison, used for the scheduling claims -/

/-- Erase the processing-time field of a full result (the only
time-dependent field in the model). -/
def eraseTimeResult (r : EnrichmentResult) : EnrichmentResult :=
  { r with processing_time := 0 }

/-- Erase the time fields of a runner result. -/
def eraseTimeRunner : RunnerResult → RunnerResult
  | RunnerResult.full r => RunnerResult.full (eraseTimeResult r)
  | RunnerResult.minimalError m =>
    RunnerResult.minimalError { m with processing_time := 0 }

/-- Erase the time field of a per-lead run outcome. -/
def eraseTimeRun : Except String EnrichmentResult → Except String EnrichmentResult
  | .ok r => .ok (eraseTimeResult r)
  | .error e => .error e

/-! ## Concrete oracles and inputs used in the counterexample theorems -/

/-- An oracle on which every probe fails: every DNS query raises, the WHOIS
lookup raises, the holehe executable is absent from all candidate paths,
and every social-platform request raises a RequestException. -/
def allFailOracle : Oracle :=
  { dnsResolve := fun _ _ => .error "DNS failure",
    whoisLookup := fun _ => .error "connection refused",
    holeheRun := fun _ _ => PathOutcome.notFound,
    request := fun _ => .error () }

/-- A concrete lead whose email is syntactically well-formed. -/
def failLead : Lead :=
  { id := 7, email := "a@b.c", company := "Acme", country := "US" }

/-! ## Concrete holehe outputs for the account-discovery claim -/

/-- A holehe stdout with no success-marker line. -/
def holeheOut0 : String :=
  "[-] nothing.com\n[-] other.com\n25 websites checked in 3 seconds"

/-- A holehe stdout with exactly 14 lines beginning with the marker. -/
def holeheOut14 : String :=
  "[+] s1.com\n[+] s2.com\n[+] s3.com\n[+] s4.com\n[+] s5.com\n[+] s6.com\n[+] s7.com\n[+] s8.com\n[+] s9.com\n[+] s10.com\n[+] s11.com\n[+] s12.com\n[+] s13.com\n[+] s14.com"

/-- A holehe stdout with exactly 20 lines beginning with the marker. -/
def holeheOut20 : String :=
  holeheOut14 ++ "\n[+] s15.com\n[+] s16.com\n[+] s17.com\n[+] s18.com\n[+] s19.com\n[+] s20.com"

/-- An oracle whose holehe executable runs successfully with the given
stdout (all other probes fail). -/
def holeheOracle (out : String) : Oracle :=
  { allFailOracle with holeheRun := fun _ _ => PathOutcome.ran 0 out }

/-- A run function on which every orchestration raises. -/
def alwaysRaisesRun : Lead → Except String EnrichmentResult :=
  fun _ => .error "boom"

/-- A second concrete lead for the runner witnesses. -/
def otherLead : Lead :=
  { id := 8, email := "d@e.f", company := "Beta", country := "DE" }

/-- A run function in which no orchestration raises: every lead is
enriched against the all-failing oracle with duration 1. -/
def plainRun : Lead → Except String EnrichmentResult :=
  fun lead => .ok (enrich_real_lead allFailOracle lead 1)

/-- The same per-lead outcomes with a different duration, as a second run. -/
def plainRunSlower : Lead → Except String EnrichmentResult :=
  fun lead => .ok (enrich_real_lead allFailOracle lead 9)


/-- A run function on which exactly the lead with id 7 raises. -/
def mixedRun : Lead → Except String EnrichmentResult :=
  fun lead =>
    if lead.id == 7 then .error "boom"
    else .ok (enrich_real_lead allFailOracle lead 1)

/-! ## Helper lemmas on the stages -/

lemma stage1Email_score_mono (o : Oracle) (lead : Lead) (r : EnrichmentResult) :
    r.score ≤ (stage1Email o lead r).score := by
  unfold stage1Email
  dsimp only
  split <;> simp

lemma stage1Email_score_le (o : Oracle) (lead : Lead) (r : EnrichmentResult) :
    (stage1Email o lead r).score ≤ r.score + 20 := by
  unfold stage1Email
  dsimp only
  split <;> simp

lemma stage2dns_score (o : Oracle) (domain : String) (r : EnrichmentResult) :
    (stage2dns o domain r).score = r.score + 15 := by
  simp [stage2dns, mailServerDetailsTruthy]

lemma stage2whois_score_mono (o : Oracle) (domain : String) (r : EnrichmentResult) :
    r.score ≤ (stage2whois o domain r).score := by
  unfold stage2whois
  split <;> simp

/-- The exact score added by the holehe stage, by case on the path loop. -/
lemma stage3holehe_score_eq (o : Oracle) (email : String) (r : EnrichmentResult) :
    (stage3holehe o email r).score = r.score +
      (match holeheLoop o email holehePaths none with
       | .ok (some (rc, out)) =>
         if rc == 0 then min ((parseHoleheAccounts out).length * 2) 30 else 0
       | _ => 0) := by
  unfold stage3holehe
  rcases h : holeheLoop o email holehePaths none with e | res
  · simp
  · rcases res with _ | ⟨rc, out⟩
    · simp
    · dsimp only
      split <;> simp_all

lemma stage3holehe_score_mono (o : Oracle) (email : String) (r : EnrichmentResult) :
    r.score ≤ (stage3holehe o email r).score := by
  rw [stage3holehe_score_eq]
  exact Nat.le_add_right _ _

lemma stage4social_score_mono (o : Oracle) (email : String) (r : EnrichmentResult) :
    r.score ≤ (stage4social o email r).score := by
  unfold stage4social
  dsimp only
  split <;> simp

/-- C1: every probe stage only ever adds to the score, and the score the
orchestrator returns is between 0 and 100 for every lead, every oracle and
every elapsed duration. -/
theorem score_monotone_and_final_bounded
    (o : Oracle) (lead : Lead) (duration : Nat) (domain email : String)
    (r : EnrichmentResult) :
    r.score ≤ (stage1Email o lead r).score ∧
    r.score ≤ (stage2dns o domain r).score ∧
    r.score ≤ (stage2whois o domain r).score ∧
    r.score ≤ (stage3holehe o email r).score ∧
    r.score ≤ (stage4social o email r).score ∧
    0 ≤ (enrich_real_lead o lead duration).score ∧
    (enrich_real_lead o lead duration).score ≤ 100 := by
  refine ⟨stage1Email_score_mono o lead r, ?_, stage2whois_score_mono o domain r,
          stage3holehe_score_mono o email r, stage4social_score_mono o email r,
          Nat.zero_le _, ?_⟩
  · rw [stage2dns_score]; exact Nat.le_add_right _ _
  · unfold enrich_real_lead
    rcases h : pySplitIndex1 '@' lead.email with _ | d
    · dsimp only
      calc (stage1Email o lead (initResult lead)).score
          ≤ (initResult lead).score + 20 := stage1Email_score_le o lead _
        _ ≤ 100 := by simp [initResult]
    · dsimp only
      exact Nat.min_le_right _ _

/-- C7: the orchestrator is a pure function of the lead and the probe
outcomes: two runs with identical probe outcomes produce identical scores,
enrichment data and status, whatever the two elapsed durations were. -/
theorem enrich_deterministic_given_probe_outcomes
    (o : Oracle) (lead : Lead) (d1 d2 : Nat) :
    (enrich_real_lead o lead d1).score = (enrich_real_lead o lead d2).score ∧
    (enrich_real_lead o lead d1).enrichment_data
      = (enrich_real_lead o lead d2).enrichment_data ∧
    (enrich_real_lead o lead d1).status = (enrich_real_lead o lead d2).status ∧
    (enrich_real_lead o lead d1).error = (enrich_real_lead o lead d2).error := by
  unfold enrich_real_lead
  rcases h : pySplitIndex1 '@' lead.email with _ | d <;> simp


/-- C2 (code bug): the mail-record sub-probe awards its 15 points
unconditionally.  First conjunct: for every oracle - hence whether DNS
resolution succeeded or raised - the DNS stage adds exactly 15 to the
score.  Remaining conjuncts: on the all-failing oracle, resolve_dns
reports the resolver exception as an error-string list, so the details
dict records the failure, yet the stage still adds 15 because a four-key
dict is truthy; the dead else-branch of enrichment.py line 245 is the
intended 0-point outcome the claim describes. -/
theorem dns_stage_unconditionally_awards_15 :
    (∀ (o : Oracle) (domain : String) (r : EnrichmentResult),
      (stage2dns o domain r).score = r.score + 15 ∧
      (stage2dns o domain r).enrichment_data.dns_info
        = some (get_mail_server_details o domain)) ∧
    resolve_dns allFailOracle "nodomain.invalid" "MX"
      = ["Error resolving MX: DNS failure"] ∧
    (get_mail_server_details allFailOracle "nodomain.invalid").mxRecords
      = Sum.inl ["Error resolving MX: DNS failure"] ∧
    (stage2dns allFailOracle "nodomain.invalid" (initResult failLead)).score = 15 := by
  refine ⟨fun o domain r => ⟨stage2dns_score o domain r, ?_⟩, rfl, rfl, rfl⟩
  simp [stage2dns, mailServerDetailsTruthy]

/-- C3 (code bug): on a lead where every probe fails or is unavailable -
email validation false (MX lookup raises), DNS resolution raises, the
WHOIS lookup raises, the holehe executable is missing at every candidate
path, and no social profile is found - the orchestrator returns status
completed, as the claim says, but score 15 instead of 0, because the DNS
stage awards its 15 points even though resolution failed. -/
theorem all_probes_failing_yields_completed_score_15 :
    (enrich_real_lead allFailOracle failLead 0).status = "completed" ∧
    (enrich_real_lead allFailOracle failLead 0).score = 15 ∧
    (enrich_real_lead allFailOracle failLead 0).enrichment_data.email_valid
      = some false ∧
    (enrich_real_lead allFailOracle failLead 0).enrichment_data.whois_info = none ∧
    (enrich_real_lead allFailOracle failLead 0).enrichment_data.holehe_accounts
      = none ∧
    (enrich_real_lead allFailOracle failLead 0).enrichment_data.social_media
      = none := by
  refine ⟨rfl, rfl, rfl, rfl, rfl, rfl⟩


/-- C4: the account-discovery stage adds exactly min(2 x found_count, 30)
to the score, where found_count is the number of stdout lines beginning
with the success marker, for every oracle (the non-successful loop
outcomes add 0); and on concrete outputs with 0, 14 and 20 marker lines
the added credit is 0, 28 and 30 respectively. -/
theorem holehe_contribution_formula :
    (∀ (o : Oracle) (email : String) (r : EnrichmentResult),
      (stage3holehe o email r).score = r.score +
        (match holeheLoop o email holehePaths none with
         | .ok (some (rc, out)) =>
           if rc == 0 then min (2 * (parseHoleheAccounts out).length) 30 else 0
         | _ => 0)) ∧
    (parseHoleheAccounts holeheOut0).length = 0 ∧
    (parseHoleheAccounts holeheOut14).length = 14 ∧
    (parseHoleheAccounts holeheOut20).length = 20 ∧
    (stage3holehe (holeheOracle holeheOut0) "a@b.c" (initResult failLead)).score
      = 0 ∧
    (stage3holehe (holeheOracle holeheOut14) "a@b.c" (initResult failLead)).score
      = 28 ∧
    (stage3holehe (holeheOracle holeheOut20) "a@b.c" (initResult failLead)).score
      = 30 := by
  refine ⟨fun o email r => ?_, rfl, rfl, rfl, rfl, rfl, rfl⟩
  rw [stage3holehe_score_eq]
  congr 1
  rcases holeheLoop o email holehePaths none with e | res
  · rfl
  · rcases res with _ | ⟨rc, out⟩
    · rfl
    · dsimp only
      rw [Nat.mul_comm]

/-! ## The no-at-sign path -/

lemma chSplitP_eq_single (p : Char → Bool) (l : List Char)
    (h : ∀ c ∈ l, p c = false) : chSplitP p l = [l] := by
  induction l with
  | nil => rfl
  | cons c t ih =>
    have hc : p c = false := h c (List.mem_cons_self c t)
    have ht := ih (fun x hx => h x (List.mem_cons_of_mem c hx))
    simp [chSplitP, hc, ht]

lemma chSplit_eq_single (sep : Char) (l : List Char)
    (h : ∀ c ∈ l, c ≠ sep) : chSplit sep l = [l] := by
  unfold chSplit
  exact chSplitP_eq_single _ _ (fun c hc => beq_eq_false_iff_ne.mpr (h c hc))

lemma pySplitIndex1_eq_none (s : String) (h : ∀ c ∈ s.data, c ≠ '@') :
    pySplitIndex1 '@' s = none := by
  unfold pySplitIndex1 pySplitChar
  rw [chSplit_eq_single _ _ h]
  rfl

lemma emailRegexMatch_eq_false (s : String) (h : ∀ c ∈ s.data, c ≠ '@') :
    emailRegexMatch s = false := by
  unfold emailRegexMatch
  rw [chSplit_eq_single _ _ h]

/-- When the email has no at sign, stage 1 stores email_valid false and
adds nothing, the domain extraction raises, and the orchestrator returns
the error record without consulting any oracle field. -/
lemma enrich_no_at (o : Oracle) (lead : Lead) (d : Nat)
    (h : ∀ c ∈ lead.email.data, c ≠ '@') :
    enrich_real_lead o lead d =
      { lead_id := lead.id, email := lead.email, company := lead.company,
        country := lead.country,
        enrichment_data := { emptyEnrichmentData with email_valid := some false },
        score := 0, processing_time := d, status := "error",
        error := some "list index out of range" } := by
  unfold enrich_real_lead
  rw [pySplitIndex1_eq_none lead.email h]
  unfold stage1Email validate_email
  rw [emailRegexMatch_eq_false lead.email h]
  simp [initResult]

/-- C8: for a lead whose email contains no at-sign character, the
orchestrator's result does not depend on the oracle at all (no network
probe is consulted), the enrichment data records email_valid false, and
the score - in particular the stage-1 contribution - is 0. -/
theorem no_at_email_runs_no_probes (o1 o2 : Oracle) (lead : Lead) (d : Nat)
    (h : ∀ c ∈ lead.email.data, c ≠ '@') :
    enrich_real_lead o1 lead d = enrich_real_lead o2 lead d ∧
    (enrich_real_lead o1 lead d).enrichment_data.email_valid = some false ∧
    (enrich_real_lead o1 lead d).score = 0 := by
  rw [enrich_no_at o1 lead d h, enrich_no_at o2 lead d h]
  exact ⟨rfl, rfl, rfl⟩

/-- Witness for no_at_email_runs_no_probes at a concrete lead whose email
has no at sign, with two distinct concrete oracles. -/
theorem no_at_email_runs_no_probes_witness :
    (∀ c ∈ ("invalid-email" : String).data, c ≠ '@') ∧
    (enrich_real_lead allFailOracle
        { id := 1, email := "invalid-email", company := "A", country := "US" } 3
      = enrich_real_lead (holeheOracle holeheOut14)
        { id := 1, email := "invalid-email", company := "A", country := "US" } 3 ∧
     (enrich_real_lead allFailOracle
        { id := 1, email := "invalid-email", company := "A", country := "US" } 3
       ).enrichment_data.email_valid = some false ∧
     (enrich_real_lead allFailOracle
        { id := 1, email := "invalid-email", company := "A", country := "US" } 3
       ).score = 0) :=
  ⟨by decide,
   no_at_email_runs_no_probes allFailOracle (holeheOracle holeheOut14)
     { id := 1, email := "invalid-email", company := "A", country := "US" } 3
     (by decide)⟩

/-- C10: for a lead whose email contains no at-sign character, the
orchestrator returns status error with the IndexError message attached,
and no later stage recorded anything: the domain extraction raised before
the domain, account-discovery and social stages could run. -/
theorem no_at_email_yields_error_status (o : Oracle) (lead : Lead) (d : Nat)
    (h : ∀ c ∈ lead.email.data, c ≠ '@') :
    (enrich_real_lead o lead d).status = "error" ∧
    (enrich_real_lead o lead d).error = some "list index out of range" ∧
    (enrich_real_lead o lead d).enrichment_data.dns_info = none ∧
    (enrich_real_lead o lead d).enrichment_data.whois_info = none ∧
    (enrich_real_lead o lead d).enrichment_data.holehe_accounts = none ∧
    (enrich_real_lead o lead d).enrichment_data.social_media = none := by
  rw [enrich_no_at o lead d h]
  exact ⟨rfl, rfl, rfl, rfl, rfl, rfl⟩

/-- Witness for no_at_email_yields_error_status at a concrete lead. -/
theorem no_at_email_yields_error_status_witness :
    (∀ c ∈ ("nodomain" : String).data, c ≠ '@') ∧
    ((enrich_real_lead allFailOracle
        { id := 2, email := "nodomain", company := "B", country := "DE" } 0
       ).status = "error" ∧
     (enrich_real_lead allFailOracle
        { id := 2, email := "nodomain", company := "B", country := "DE" } 0
       ).error = some "list index out of range") :=
  ⟨by decide,
   (no_at_email_yields_error_status allFailOracle
      { id := 2, email := "nodomain", company := "B", country := "DE" } 0
      (by decide)).1,
   (no_at_email_yields_error_status allFailOracle
      { id := 2, email := "nodomain", company := "B", country := "DE" } 0
      (by decide)).2.1⟩

/-! ## Batch runner lemmas -/

lemma length_filterMap_of_isSome {α β : Type} (f : α → Option β) (l : List α)
    (h : ∀ a ∈ l, (f a).isSome) : (l.filterMap f).length = l.length := by
  induction l with
  | nil => rfl
  | cons a t ih =>
    have ha := h a (List.mem_cons_self a t)
    rcases Option.isSome_iff_exists.mp ha with ⟨b, hb⟩
    simp [List.filterMap_cons, hb, ih (fun x hx => h x (List.mem_cons_of_mem a hx))]

/-- The runner produces exactly one result per submitted lead: its output
length equals the number of leads, for every completion order that is a
permutation of the submission indices. -/
lemma process_leads_parallel_length (leads : List Lead) (w : Nat)
    (run : Lead → Except String EnrichmentResult) (order : List Nat)
    (h : order.Perm (List.range leads.length)) :
    (process_leads_parallel leads w run order).length = leads.length := by
  unfold process_leads_parallel
  rw [length_filterMap_of_isSome]
  · exact h.length_eq.trans (List.length_range _)
  · intro i hi
    have hlt : i < leads.length := List.mem_range.mp (h.mem_iff.mp hi)
    rcases hg : leads.get? i with _ | lead
    · exact absurd (List.get?_eq_none.mp hg) (Nat.not_le.mpr hlt)
    · simp [hg]

/-- C5: the batch runner returns exactly one result per input lead, and a
lead whose orchestration raised an escaping exception appears in the
output as the minimal error record (lead id, email, error status, the
exception message, zero processing time) - the batch neither loses the
lead nor crashes. -/
theorem runner_one_result_per_lead_and_error_isolation
    (leads : List Lead) (w : Nat) (run : Lead → Except String EnrichmentResult)
    (order : List Nat) (h : order.Perm (List.range leads.length)) :
    (process_leads_parallel leads w run order).length = leads.length ∧
    ∀ (i : Nat) (hi : i < leads.length) (e : String),
      run (leads.get ⟨i, hi⟩) = .error e →
      RunnerResult.minimalError
        { lead_id := (leads.get ⟨i, hi⟩).id, email := (leads.get ⟨i, hi⟩).email,
          status := "error", error := e, processing_time := 0 }
        ∈ process_leads_parallel leads w run order := by
  refine ⟨process_leads_parallel_length leads w run order h, ?_⟩
  intro i hi e hrun
  unfold process_leads_parallel
  apply List.mem_filterMap.mpr
  refine ⟨i, h.mem_iff.mpr (List.mem_range.mpr hi), ?_⟩
  rw [List.get?_eq_get hi]
  simp only [List.get_eq_getElem] at hrun
  simp [collectLead, hrun]


/-- Witness for runner_one_result_per_lead_and_error_isolation on two
concrete leads whose runs both raise, with completion order reversed. -/
theorem runner_one_result_per_lead_and_error_isolation_witness :
    ([1, 0] : List Nat).Perm (List.range [failLead, otherLead].length) ∧
    (process_leads_parallel [failLead, otherLead] 2 alwaysRaisesRun [1, 0]).length
      = 2 ∧
    RunnerResult.minimalError
      { lead_id := 7, email := "a@b.c", status := "error", error := "boom",
        processing_time := 0 }
      ∈ process_leads_parallel [failLead, otherLead] 2 alwaysRaisesRun [1, 0] := by
  have hp : ([1, 0] : List Nat).Perm (List.range [failLead, otherLead].length) := by
    decide
  have h := runner_one_result_per_lead_and_error_isolation
    [failLead, otherLead] 2 alwaysRaisesRun [1, 0] hp
  exact ⟨hp, h.1, h.2 0 (by decide) "boom" rfl⟩

/-- C6: with the per-lead probe outcomes fixed (the two runs agree on every
lead up to the processing-time field), the multiset of results does not
depend on the worker bound: any two completion orders - hence any two
worker counts, including W=1 and W=N - give permutations of the same
collection, once the time fields are erased. -/
theorem worker_count_does_not_change_result_set
    (leads : List Lead) (w1 w2 : Nat)
    (run1 run2 : Lead → Except String EnrichmentResult)
    (order1 order2 : List Nat)
    (hruns : ∀ lead, eraseTimeRun (run1 lead) = eraseTimeRun (run2 lead))
    (h1 : order1.Perm (List.range leads.length))
    (h2 : order2.Perm (List.range leads.length)) :
    ((process_leads_parallel leads w1 run1 order1).map eraseTimeRunner).Perm
      ((process_leads_parallel leads w2 run2 order2).map eraseTimeRunner) := by
  have hcollect : ∀ lead, eraseTimeRunner (collectLead run1 lead)
      = eraseTimeRunner (collectLead run2 lead) := by
    intro lead
    have h := hruns lead
    unfold collectLead
    cases e1 : run1 lead <;> cases e2 : run2 lead <;>
        rw [e1, e2] at h <;> simp [eraseTimeRun] at h <;>
      simp [eraseTimeRunner, h]
  unfold process_leads_parallel
  rw [List.map_filterMap, List.map_filterMap]
  have hfun : (fun i => ((leads.get? i).map (collectLead run1)).map eraseTimeRunner)
      = fun i => ((leads.get? i).map (collectLead run2)).map eraseTimeRunner := by
    funext i
    cases hg : leads.get? i
    · rfl
    · simp [hcollect]
  rw [hfun]
  exact (h1.trans h2.symm).filterMap _



/-- Erasing the processing-time field makes the orchestrator's output
independent of the elapsed duration (shared helper). -/
lemma enrich_erase_time (o : Oracle) (lead : Lead) (d1 d2 : Nat) :
    eraseTimeResult (enrich_real_lead o lead d1)
      = eraseTimeResult (enrich_real_lead o lead d2) := by
  unfold enrich_real_lead eraseTimeResult
  rcases h : pySplitIndex1 '@' lead.email with _ | d <;> simp

/-- Witness for worker_count_does_not_change_result_set: two concrete
leads, worker bounds 1 and 2, reversed completion orders, and two runs
that agree on probe outcomes but differ in recorded durations. -/
theorem worker_count_does_not_change_result_set_witness :
    (∀ lead, eraseTimeRun (plainRun lead) = eraseTimeRun (plainRunSlower lead)) ∧
    ([0, 1] : List Nat).Perm (List.range [failLead, otherLead].length) ∧
    ([1, 0] : List Nat).Perm (List.range [failLead, otherLead].length) ∧
    ((process_leads_parallel [failLead, otherLead] 1 plainRun [0, 1]).map
        eraseTimeRunner).Perm
      ((process_leads_parallel [failLead, otherLead] 2 plainRunSlower [1, 0]).map
        eraseTimeRunner) := by
  have hruns : ∀ lead,
      eraseTimeRun (plainRun lead) = eraseTimeRun (plainRunSlower lead) := by
    intro lead
    simp only [plainRun, plainRunSlower, eraseTimeRun]
    exact congrArg Except.ok (enrich_erase_time allFailOracle lead 1 9)
  have h1 : ([0, 1] : List Nat).Perm (List.range [failLead, otherLead].length) := by
    decide
  have h2 : ([1, 0] : List Nat).Perm (List.range [failLead, otherLead].length) := by
    decide
  exact ⟨hruns, h1, h2,
    worker_count_does_not_change_result_set [failLead, otherLead] 1 2
      plainRun plainRunSlower [0, 1] [1, 0] hruns h1 h2⟩

lemma length_filter_add_length_filter_not {α : Type} (p : α → Bool) (l : List α) :
    (l.filter p).length + (l.filter (fun a => !(p a))).length = l.length := by
  induction l with
  | nil => rfl
  | cons a t ih => cases hp : p a <;> simp [List.filter_cons, hp] <;> omega

/-- C9: after a batch over any completion order, the progress-state update
reports processed = N (the number of leads), failed = k (the number of
results whose status is not completed), successful = N - k, and progress
percentage 100. -/
theorem progress_state_after_batch
    (leads : List Lead) (w : Nat) (run : Lead → Except String EnrichmentResult)
    (order : List Nat) (st : ProgressState)
    (h : order.Perm (List.range leads.length)) :
    (updateProcessingStatus (process_leads_parallel leads w run order) st).processed_leads
      = leads.length ∧
    (updateProcessingStatus (process_leads_parallel leads w run order) st).failed_leads
      = ((process_leads_parallel leads w run order).filter
          (fun r => !(runnerStatus r == "completed"))).length ∧
    (updateProcessingStatus (process_leads_parallel leads w run order) st).successful_leads
      = leads.length - ((process_leads_parallel leads w run order).filter
          (fun r => !(runnerStatus r == "completed"))).length ∧
    (updateProcessingStatus (process_leads_parallel leads w run order) st).progress_percentage
      = 100 := by
  have hlen : (process_leads_parallel leads w run order).length = leads.length :=
    process_leads_parallel_length leads w run order h
  have hsplit := length_filter_add_length_filter_not
    (fun r => runnerStatus r == "completed") (process_leads_parallel leads w run order)
  refine ⟨?_, ?_, ?_, rfl⟩
  · simp [updateProcessingStatus, hlen]
  · simp only [updateProcessingStatus]
    omega
  · simp only [updateProcessingStatus]
    omega


/-- Witness for progress_state_after_batch: two leads, one of which
raises, so the batch ends with processed 2, failed 1, successful 1,
percentage 100. -/
theorem progress_state_after_batch_witness :
    ([0, 1] : List Nat).Perm (List.range [failLead, otherLead].length) ∧
    (updateProcessingStatus
        (process_leads_parallel [failLead, otherLead] 5 mixedRun [0, 1])
        { processed_leads := 0, successful_leads := 0, failed_leads := 0,
          progress_percentage := 0 }).processed_leads = 2 ∧
    (updateProcessingStatus
        (process_leads_parallel [failLead, otherLead] 5 mixedRun [0, 1])
        { processed_leads := 0, successful_leads := 0, failed_leads := 0,
          progress_percentage := 0 }).failed_leads = 1 ∧
    (updateProcessingStatus
        (process_leads_parallel [failLead, otherLead] 5 mixedRun [0, 1])
        { processed_leads := 0, successful_leads := 0, failed_leads := 0,
          progress_percentage := 0 }).successful_leads = 1 ∧
    (updateProcessingStatus
        (process_leads_parallel [failLead, otherLead] 5 mixedRun [0, 1])
        { processed_leads := 0, successful_leads := 0, failed_leads := 0,
          progress_percentage := 0 }).progress_percentage = 100 := by
  have hp : ([0, 1] : List Nat).Perm (List.range [failLead, otherLead].length) := by
    decide
  have h := progress_state_after_batch [failLead, otherLead] 5 mixedRun [0, 1]
    { processed_leads := 0, successful_leads := 0, failed_leads := 0,
      progress_percentage := 0 } hp
  refine ⟨hp, h.1, ?_, ?_, h.2.2.2⟩
  · rw [h.2.1]
    rfl
  · rw [h.2.2.1]
    rfl
